import Mathlib

/-!
Verification development for the SIFEN worker (worker-sisprime).

The Python source is shallowly embedded: each handler becomes a pure
function from its parsed inputs (the fields the code extracts from the
SIFEN SOAP response, the parsed broker message, the database row) to a
record of its effects (field-level updates to the two tables, the list
of messages published to the broker, and the final ack/nack).  External
library calls (XML parsing, XMLDSig signing, SHA-256, HTTP) are inputs
or function parameters of the embedding.

Python string semantics are modelled explicitly: `pyEmpty` is string
falsiness, `pyOrChain` is an `a or b or default` chain over values that
may be `None` (`Option.none`) or empty, `pyStrip`/`pyLower` are
`str.strip()`/`str.lower()` restricted to the ASCII repertoire used by
the code, `pyIsDigit`/`decimalVal` model `str.isdigit()` and `int(...)`
on decimal strings.
-/

namespace Sisprime

/-! ## Python string semantics helpers -/

/-- Python string falsiness: `not s` for a `str`. -/
def pyEmpty (s : String) : Bool :=
  s.data.isEmpty

/-- Characters stripped by Python `str.strip()`. -/
def pyIsSpace (c : Char) : Bool :=
  c = ' ' || c = '\t' || c = '\n' || c = '\r' || c = '\x0b' || c = '\x0c'

/-- Python `str.strip()` on the character list. -/
def pyStripChars (l : List Char) : List Char :=
  ((l.dropWhile pyIsSpace).reverse.dropWhile pyIsSpace).reverse

/-- Python `str.strip()`. -/
def pyStrip (s : String) : String :=
  ⟨pyStripChars s.data⟩

/-- ASCII lower-casing of one character (`str.lower()` on the code's ASCII action names). -/
def lowerChar (c : Char) : Char :=
  if 65 ≤ c.toNat ∧ c.toNat ≤ 90 then Char.ofNat (c.toNat + 32) else c

/-- Python `str.lower()` (ASCII repertoire). -/
def pyLower (s : String) : String :=
  ⟨s.data.map lowerChar⟩

/-- Python `a or b` for two strings. -/
def pyOrStr (a b : String) : String :=
  if pyEmpty a then b else a

/-- Python `x1 or x2 or ... or default` where each `xi` is a `findtext`
result (`None` or a string, with the empty string falsy). -/
def pyOrChain (xs : List (Option String)) (d : String) : String :=
  match xs with
  | [] => d
  | none :: rest => pyOrChain rest d
  | some s :: rest => if pyEmpty s then pyOrChain rest d else s

/-- Python `opt or default` where `opt` is a `findtext` result. -/
def pyOrOpt (a : Option String) (d : String) : String :=
  match a with
  | none => d
  | some s => if pyEmpty s then d else s

/-- Python `str.isdigit()` (ASCII repertoire). -/
def pyIsDigit (s : String) : Bool :=
  !pyEmpty s && s.data.all Char.isDigit

/-- Python `int(...)` on a decimal digit string. -/
def decimalVal (s : String) : Int :=
  Int.ofNat (s.data.foldl (fun n c => n * 10 + (c.toNat - 48)) 0)

/-- Python `sub in s` (substring containment). -/
def containsSub (s sub : String) : Bool :=
  decide (sub.data <:+: s.data)

/-- How Python renders an `Optional[str]` inside an f-string (`None` prints as `"None"`). -/
def pyStrOpt : Option String → String
  | none => "None"
  | some s => s

/-- Decimal rendering of a `Nat`, as Python `str(int)`; `fuel`-structured so it
computes in the kernel. -/
def natStrFuel : Nat → Nat → List Char
  | 0, _ => []
  | fuel + 1, n =>
      if n < 10 then [Char.ofNat (48 + n)]
      else natStrFuel fuel (n / 10) ++ [Char.ofNat (48 + n % 10)]

/-- Python `str(n)` for a natural number. -/
def natStr (n : Nat) : String :=
  ⟨natStrFuel (n + 1) n⟩

/-- Python `str.replace(pattern, repl)` on character lists (all non-overlapping
occurrences, left to right); `fuel`-structured so it computes in the kernel. -/
def replaceAllFuel (pattern repl : List Char) : Nat → List Char → List Char
  | 0, s => s
  | _ + 1, [] => []
  | fuel + 1, c :: rest =>
      if pattern.isPrefixOf (c :: rest) then
        repl ++ replaceAllFuel pattern repl fuel ((c :: rest).drop pattern.length)
      else
        c :: replaceAllFuel pattern repl fuel rest

/-- Python `s.replace(pattern, repl)`. -/
def replaceAllStr (pattern repl s : String) : String :=
  ⟨replaceAllFuel pattern.data repl.data s.data.length s.data⟩

/-! ## Byte-level helpers: UTF-8, lowercase hex, base64 -/

/-- Lowercase hexadecimal digit. -/
def hexDigitChar (n : Nat) : Char :=
  if n < 10 then Char.ofNat (48 + n) else Char.ofNat (87 + n)

/-- Two lowercase hex digits of one byte. -/
def byteHexChars (b : Nat) : List Char :=
  [hexDigitChar (b / 16 % 16), hexDigitChar (b % 16)]

/-- `bytes.hex()`: lowercase hex of a byte list. -/
def bytesToHex (bs : List Nat) : String :=
  ⟨(bs.map byteHexChars).flatten⟩

/-- UTF-8 encoding of one character, as byte values. -/
def charUtf8 (c : Char) : List Nat :=
  let n := c.toNat
  if n < 128 then [n]
  else if n < 2048 then [192 + n / 64, 128 + n % 64]
  else if n < 65536 then [224 + n / 4096, 128 + n / 64 % 64, 128 + n % 64]
  else [240 + n / 262144, 128 + n / 4096 % 64, 128 + n / 64 % 64, 128 + n % 64]

/-- `s.encode('utf-8')` as a byte list. -/
def strUtf8 (s : String) : List Nat :=
  (s.data.map charUtf8).flatten

/-- Python `s.encode('utf-8').hex()`: lowercase hex of the UTF-8 bytes of `s`. -/
def strToHexLower (s : String) : String :=
  bytesToHex (strUtf8 s)

/-- Value of one base64 alphabet character. -/
def b64CharVal (c : Char) : Nat :=
  if 65 ≤ c.toNat ∧ c.toNat ≤ 90 then c.toNat - 65
  else if 97 ≤ c.toNat ∧ c.toNat ≤ 122 then c.toNat - 97 + 26
  else if 48 ≤ c.toNat ∧ c.toNat ≤ 57 then c.toNat - 48 + 52
  else if c = '+' then 62
  else if c = '/' then 63
  else 0

/-- Standard base64 decoding of a character list to bytes (groups of four,
honouring `=` padding).  The worker never decodes base64; this definition
exists only to state that the QR `DigestValue` field is *not* the hex of
the decoded digest bytes. -/
def base64DecodeChars : List Char → List Nat
  | a :: b :: c :: d :: rest =>
      let v := b64CharVal a * 262144 + b64CharVal b * 4096 + b64CharVal c * 64 + b64CharVal d
      let bytes := [v / 65536 % 256, v / 256 % 256, v % 256]
      (if d = '=' then (if c = '=' then bytes.take 1 else bytes.take 2) else bytes)
        ++ base64DecodeChars rest
  | _ => []

/-- Standard base64 decoding of a string to bytes. -/
def base64Decode (s : String) : List Nat :=
  base64DecodeChars s.data

/-! ## Constants from `config.py` -/

/-- `config.SIFEN_VERSION`. -/
def SIFEN_VERSION : String := "150"

/-- `config.MAIN_QUEUE`. -/
def MAIN_QUEUE : String := "faturas_para_processar"

/-- `config.DELAY_QUEUE`. -/
def DELAY_QUEUE : String := "faturas_wait_30s"

/-- `config.MAX_TENTATIVAS_CONSULTA`. -/
def MAX_TENTATIVAS_CONSULTA : Int := 10

/-- `config.CODIGO_STATUS_APROVADO`. -/
def CODIGO_STATUS_APROVADO : String := "0201"

/-- `config.CODIGO_STATUS_REJEITADO`. -/
def CODIGO_STATUS_REJEITADO : String := "0300"

/-- `config.CODIGO_STATUS_EXCEDEU_TENTATIVAS`. -/
def CODIGO_STATUS_EXCEDEU_TENTATIVAS : String := "998"

/-- `config.CODIGO_STATUS_ENVIADO`. -/
def CODIGO_STATUS_ENVIADO : String := "900"

/-- `config.CODIGO_STATUS_CANCELADO`. -/
def CODIGO_STATUS_CANCELADO : String := "600"

/-- `config.CODIGOS_SUCESSO_CANCELAMENTO`. -/
def CODIGOS_SUCESSO_CANCELAMENTO : List String := ["0500", "0501", "0600"]

/-- A single apostrophe, written by code point to keep string literals plain. -/
def aspas : String := "\x27"

/-- The XML declaration removed by `handle_enviar` and `enviar_evento_cancelamento`:
the Python literal `<?xml version='1.0' encoding='utf-8'?>`. -/
def xmlHeaderDecl : String :=
  "<?xml version=" ++ aspas ++ "1.0" ++ aspas ++ " encoding=" ++ aspas ++ "utf-8" ++ aspas ++ "?>"

/-! ## QR builder (`sifen_xml.assinar_e_gerar_qr`, steps 5-9)

The XMLDSig signing itself is an external library call; the embedding
starts from the signed tree, abstracted as the values of exactly the
queries the code issues against it. -/

/-- The queries `assinar_e_gerar_qr` issues against the signed tree:
`DE@Id`, the `DigestValue` text (checked non-empty before this point),
the four QR text fields (`findtext` results, `None` when absent), and
`len(findall('.//s:gCamItem'))`. -/
structure SignedDoc where
  deId : Option String
  digestValueB64 : String
  dFeEmiDE : Option String
  dRucRec : Option String
  dTotGralOpe : Option String
  dTotIVA : Option String
  gCamItemCount : Nat
  deriving DecidableEq, Repr

/-- The helper `get_xml_text(path, default="0")`:
`val.strip() if val else default`. -/
def getXmlText (val : Option String) : String :=
  match val with
  | none => "0"
  | some s => if pyEmpty s then "0" else pyStrip s

/-- Line 263: `digest_value_hex = digest_value_b64.strip().encode(SIFEN_ENCODING).hex()` —
the hex of the UTF-8 bytes of the base64 *text*, not of the decoded digest. -/
def digestValueHexDe (digest_value_b64 : String) : String :=
  strToHexLower (pyStrip digest_value_b64)

/-- Step 7 of `assinar_e_gerar_qr`: the `url_base_qr` f-string. -/
def urlBaseQr (doc : SignedDoc) (csc_id : String) : String :=
  "nVersion=" ++ SIFEN_VERSION ++
  "&Id=" ++ pyStrOpt doc.deId ++
  "&dFeEmiDE=" ++ strToHexLower (getXmlText doc.dFeEmiDE) ++
  "&dRucRec=" ++ getXmlText doc.dRucRec ++
  "&dTotGralOpe=" ++ getXmlText doc.dTotGralOpe ++
  "&dTotIVA=" ++ getXmlText doc.dTotIVA ++
  "&cItems=" ++ natStr doc.gCamItemCount ++
  "&DigestValue=" ++ digestValueHexDe doc.digestValueB64 ++
  "&IdCSC=" ++ csc_id

/-- Steps 8-9 of `assinar_e_gerar_qr`: hash seal and final URL.
`sha256hex` stands for `hashlib.sha256(· .encode('utf-8')).hexdigest()`,
an external library call; `url_sifen_qr` is the configured `URL_SIFEN_QR`. -/
def urlFinalQr (url_sifen_qr : String) (doc : SignedDoc) (csc csc_id : String)
    (sha256hex : String → String) : String :=
  url_sifen_qr ++ urlBaseQr doc csc_id ++ "&cHashQR=" ++
    sha256hex (urlBaseQr doc csc_id ++ pyStrip csc)

/-- The field list of the QR base query, following the spec's words
(§4.2 steps 7-8): the nine fields in their exact order, `nVersion` the
fixed version, `dFeEmiDE` hex-encoded, `cItems` the `gCamItem` count,
text fields extracted with the `"0"` default. -/
def qrFieldsSpec (doc : SignedDoc) (csc_id : String) : List (String × String) :=
  [("nVersion", "150"),
   ("Id", pyStrOpt doc.deId),
   ("dFeEmiDE", strToHexLower (getXmlText doc.dFeEmiDE)),
   ("dRucRec", getXmlText doc.dRucRec),
   ("dTotGralOpe", getXmlText doc.dTotGralOpe),
   ("dTotIVA", getXmlText doc.dTotIVA),
   ("cItems", natStr doc.gCamItemCount),
   ("DigestValue", digestValueHexDe doc.digestValueB64),
   ("IdCSC", csc_id)]

/-- Ampersand-joining of `name=value` fields without URL-encoding,
following the spec's words (§4.2 step 8). -/
def joinAmp : List (String × String) → String
  | [] => ""
  | [f] => f.1 ++ "=" ++ f.2
  | f :: rest => f.1 ++ "=" ++ f.2 ++ "&" ++ joinAmp rest

/-- Splits a character list at the *first* occurrence of `marker`:
`chopMarker m s = some (a, b)` when `s = a ++ m ++ b` with the shown `a`
minimal.  Used to state that the hash seal can be recovered from the
produced QR URL. -/
def chopMarker (marker : List Char) : List Char → Option (List Char × List Char)
  | [] => none
  | c :: rest =>
      if marker.isPrefixOf (c :: rest) then
        some ([], (c :: rest).drop marker.length)
      else
        match chopMarker marker rest with
        | some (a, b) => some (c :: a, b)
        | none => none

/-! ## SOAP client (`sifen_api._make_sifen_request`) -/

/-- Lines 113-117: whether the response body contains a plausible XML root. -/
def temXmlValido (response_text : String) : Bool :=
  !pyEmpty response_text &&
    (containsSub response_text "<?xml" ||
     containsSub response_text "<env:Envelope" ||
     containsSub response_text "<soap:Envelope" ||
     containsSub response_text "<Envelope")

/-- The response-handling tail of `_make_sifen_request` (lines 119-137):
given `response.ok` and `response.text`, either the returned body or the
raised exception (`response.raise_for_status()`). -/
def makeSifenRequest (response_ok : Bool) (response_text : String) : Except Unit String :=
  if !response_ok then
    if temXmlValido response_text then Except.ok response_text
    else Except.error ()
  else Except.ok response_text

/-! ## Broker messages and handler effects -/

/-- A parsed broker message body (`json.loads` of the payload), with the
four keys the code reads; `none` means the key is absent. -/
structure DadosMensagem where
  id_fatura : Option Int := none
  acao : Option String := none
  tentativas : Option Int := none
  motivo : Option String := none
  deriving DecidableEq, Repr

/-- A `basic_publish` call: routing key, persistence flag
(`delivery_mode=2`), and the JSON body. -/
structure MensagemPublicada where
  routing_key : String
  persistente : Bool
  corpo : DadosMensagem
  deriving DecidableEq, Repr

/-- Final broker confirmation of a delivery. -/
inductive Confirmacao where
  | ack
  | nackSemReenfileirar
  deriving DecidableEq, Repr

/-- The keyword arguments a handler passes to `update_tb_de_emissao`;
`none` means the column is not touched.  `cod_status` is doubly optional
because `handle_cancelar` can pass a Python `None` value for it. -/
structure EmissaoUpdate where
  xml_assinado : Option String := none
  xml_retorno : Option String := none
  protocolo : Option String := none
  xml_cancelamento_envio : Option String := none
  xml_cancelamento_retorno : Option String := none
  cod_status : Option (Option String) := none
  desc_status : Option String := none
  deriving DecidableEq, Repr

/-- The arguments a handler passes to `update_tb_de_documento`;
`none` means the column is not touched. -/
structure DocumentoUpdate where
  cod_status : Option Int := none
  desc_status : Option String := none
  deriving DecidableEq, Repr

/-- The observable effects of one handler invocation. -/
structure ResultadoHandler where
  emissao : EmissaoUpdate := {}
  documento : DocumentoUpdate := {}
  publicadas : List MensagemPublicada := []
  confirmacao : Confirmacao
  deriving DecidableEq, Repr

/-- `handlers.agendar_consulta`: publishes one persistent message to the
delay queue with `tentativas = dados_originais.get('tentativas', 1)`. -/
def agendarConsulta (id_fatura : Int) (dados_originais : DadosMensagem) : MensagemPublicada :=
  { routing_key := DELAY_QUEUE,
    persistente := true,
    corpo := { id_fatura := some id_fatura,
               acao := some "consultar",
               tentativas := some (dados_originais.tentativas.getD 1) } }

/-! ## Submit handler (`handlers.handle_enviar`)

The signing, zipping and HTTP call are external; the embedding takes the
signed-with-QR XML, the raw SIFEN response text, and the `findtext`
results against the parsed response. -/

/-- The `findtext` queries `handle_enviar` issues against the parsed
SIFEN submit response (wildcard-namespace and plain variants). -/
structure RetornoEnvio where
  dProtConsLoteNs : Option String := none
  dProtConsLotePlain : Option String := none
  dMsgResNs : Option String := none
  dMsgResPlain : Option String := none
  dCodResNs : Option String := none
  dCodResPlain : Option String := none
  deriving DecidableEq, Repr

/-- Lines 154-158: protocol extraction with wildcard/plain fallback. -/
def protocoloEnvio (r : RetornoEnvio) : String :=
  pyOrChain [r.dProtConsLoteNs, r.dProtConsLotePlain] ""

/-- Lines 132-137: strip the XML declaration and wrap in `<rLoteDE>`. -/
def xmlFinalEnvio (xml_assinado_com_qr : String) : String :=
  "<rLoteDE>" ++ pyStrip (replaceAllStr xmlHeaderDecl "" xml_assinado_com_qr) ++ "</rLoteDE>"

/-- `handle_enviar`, from the point where the SIFEN response is parsed. -/
def handleEnviar (id_docfis : Int) (xml_assinado_com_qr retorno_sifen : String)
    (r : RetornoEnvio) : ResultadoHandler :=
  let xml_final := xmlFinalEnvio xml_assinado_com_qr
  let protocolo := protocoloEnvio r
  if pyEmpty protocolo || protocolo = "0" then
    let msg_res := pyOrChain [r.dMsgResNs, r.dMsgResPlain] "Erro não especificado"
    let codigo_res := pyOrChain [r.dCodResNs, r.dCodResPlain] "999"
    { emissao := { xml_assinado := some xml_final,
                   xml_retorno := some retorno_sifen,
                   cod_status := some (some codigo_res),
                   desc_status := some ("Falha no envio: " ++ msg_res) },
      documento := { cod_status := if pyIsDigit codigo_res then some (decimalVal codigo_res) else none,
                     desc_status := some ("Falha no envio: " ++ msg_res) },
      confirmacao := Confirmacao.ack }
  else
    { emissao := { xml_assinado := some xml_final,
                   xml_retorno := some retorno_sifen,
                   protocolo := some protocolo,
                   cod_status := some (some CODIGO_STATUS_ENVIADO),
                   desc_status := some "Lote recebido. Aguardando consulta de status." },
      documento := { cod_status := some (decimalVal CODIGO_STATUS_ENVIADO),
                     desc_status := some "Lote recebido. Aguardando consulta de status." },
      publicadas := [agendarConsulta id_docfis { tentativas := some 1 }],
      confirmacao := Confirmacao.ack }

/-! ## Poll handler (`handlers.handle_consultar`) -/

/-- The `findtext` queries `handle_consultar` issues against the parsed
SIFEN poll response. -/
structure RetornoConsulta where
  dEstResNs : Option String := none
  dEstResPlain : Option String := none
  dMsgResLotNs : Option String := none
  dMsgResLotPlain : Option String := none
  dMsgResNs : Option String := none
  dMsgResPlain : Option String := none
  dCodResNs : Option String := none
  dCodResLotNs : Option String := none
  dCodResPlain : Option String := none
  dCodResLotPlain : Option String := none
  deriving DecidableEq, Repr

/-- Lines 262-266: `status_documento`. -/
def statusDocumento (r : RetornoConsulta) : String :=
  pyStrip (pyOrChain [r.dEstResNs, r.dEstResPlain] "")

/-- Lines 274-278: `msg_res`. -/
def msgResConsulta (r : RetornoConsulta) : String :=
  pyStrip (pyOrChain [r.dMsgResNs, r.dMsgResPlain] "")

/-- Lines 268-281: `msg_lote`, falling back to `msg_res` when empty. -/
def msgLote (r : RetornoConsulta) : String :=
  let m := pyStrip (pyOrChain [r.dMsgResLotNs, r.dMsgResLotPlain] "")
  if pyEmpty m && !pyEmpty (msgResConsulta r) then msgResConsulta r else m

/-- Lines 284-290: `codigo_resposta`. -/
def codigoResposta (r : RetornoConsulta) : String :=
  pyStrip (pyOrChain [r.dCodResNs, r.dCodResLotNs, r.dCodResPlain, r.dCodResLotPlain] "")

/-- Line 293: the transient `0160 "XML Mal Formado."` detection. -/
def caso0160 (r : RetornoConsulta) : Bool :=
  codigoResposta r = "0160" && pyStrip (msgLote r) = "XML Mal Formado."

/-- Line 342: `is_aprovado`. -/
def isAprovado (r : RetornoConsulta) : Bool :=
  statusDocumento r = "Aprobado"

/-- Lines 343-347: `is_rejeitado`. -/
def isRejeitado (r : RetornoConsulta) : Bool :=
  statusDocumento r = "Rechazado" ||
    containsSub (msgLote r) "Cancelado" ||
    containsSub (msgLote r) "Rechazado"

/-- `handle_consultar`, from the point where the SIFEN response is
parsed; `dados` is the parsed original message body. -/
def handleConsultar (id_docfis : Int) (retorno_consulta : String)
    (r : RetornoConsulta) (dados : DadosMensagem) : ResultadoHandler :=
  if caso0160 r then
    let tentativas := dados.tentativas.getD 1
    if tentativas < MAX_TENTATIVAS_CONSULTA then
      { publicadas := [agendarConsulta id_docfis { dados with tentativas := some (tentativas + 1) }],
        emissao := { xml_retorno := some retorno_consulta,
                     cod_status := some (some "900"),
                     desc_status := some "Reprocessando consulta" },
        documento := { cod_status := some 900,
                       desc_status := some "Reprocessando consulta" },
        confirmacao := Confirmacao.ack }
    else
      { emissao := { xml_retorno := some retorno_consulta,
                     cod_status := some (some CODIGO_STATUS_EXCEDEU_TENTATIVAS),
                     desc_status := some "Excedeu o limite de tentativas de consulta (erro 0160)." },
        documento := { cod_status := some (decimalVal CODIGO_STATUS_EXCEDEU_TENTATIVAS),
                       desc_status := some "Excedeu o limite de tentativas de consulta (erro 0160)." },
        confirmacao := Confirmacao.ack }
  else if isAprovado r then
    let cod_status := r.dCodResNs.getD CODIGO_STATUS_APROVADO
    { emissao := { xml_retorno := some retorno_consulta,
                   cod_status := some (some cod_status),
                   desc_status := some "Aprobado exitosamente." },
      documento := { cod_status := some (if pyIsDigit cod_status then decimalVal cod_status
                                         else decimalVal CODIGO_STATUS_APROVADO),
                     desc_status := some "Aprobado exitosamente." },
      confirmacao := Confirmacao.ack }
  else if isRejeitado r then
    let codigo_rejeicao :=
      pyOrChain [r.dCodResNs, r.dCodResLotNs, r.dCodResPlain, r.dCodResLotPlain]
        CODIGO_STATUS_REJEITADO
    let motivo_rejeicao :=
      pyOrStr (msgLote r) (pyOrStr (msgResConsulta r)
        (pyOrChain [r.dMsgResNs, r.dMsgResPlain] "Motivo não especificado."))
    { emissao := { xml_retorno := some retorno_consulta,
                   cod_status := some (some codigo_rejeicao),
                   desc_status := some ("Rejeitado: " ++ motivo_rejeicao) },
      documento := { cod_status := some (if pyIsDigit codigo_rejeicao then decimalVal codigo_rejeicao
                                         else decimalVal CODIGO_STATUS_REJEITADO),
                     desc_status := some ("Rejeitado: " ++ motivo_rejeicao) },
      confirmacao := Confirmacao.ack }
  else
    let tentativas := dados.tentativas.getD 1
    if tentativas < MAX_TENTATIVAS_CONSULTA then
      { publicadas := [agendarConsulta id_docfis { dados with tentativas := some (tentativas + 1) }],
        confirmacao := Confirmacao.ack }
    else
      { emissao := { xml_retorno := some retorno_consulta,
                     cod_status := some (some CODIGO_STATUS_EXCEDEU_TENTATIVAS),
                     desc_status := some "Excedeu o limite de tentativas de consulta." },
        documento := { cod_status := some (decimalVal CODIGO_STATUS_EXCEDEU_TENTATIVAS),
                       desc_status := some "Excedeu o limite de tentativas de consulta." },
        confirmacao := Confirmacao.ack }

/-! ## Cancel handler (`handlers.handle_cancelar`) -/

/-- The `findtext` queries `handle_cancelar` issues against the parsed
cancellation response (wildcard namespace only). -/
structure RetornoCancelamento where
  dCodResNs : Option String := none
  dMsgResNs : Option String := none
  dEstResNs : Option String := none
  deriving DecidableEq, Repr

/-- Line 478: `motivo = dados.get('motivo', 'Solicitud de cancelacion')`. -/
def motivoEfetivo (dados : DadosMensagem) : String :=
  dados.motivo.getD "Solicitud de cancelacion"

/-- Line 524: Python `cod_res in CODIGOS_SUCESSO_CANCELAMENTO`
(`cod_res` may be `None`). -/
def codResEhSucesso (cod_res : Option String) : Bool :=
  match cod_res with
  | some c => c ∈ CODIGOS_SUCESSO_CANCELAMENTO
  | none => false

/-- `handle_cancelar`.  `cdc` is the result of `extrair_cdc_do_xml`;
`gerarEvento` stands for `gerar_evento_assinado_wsdl` applied to the CDC
and reason (`Except.error` = raised), `enviarEvento` for
`enviar_evento_cancelamento`, and `parseRetorno` for
`etree.fromstring` plus the three `findtext` calls (`none` = raised). -/
def handleCancelar (id_docfis : Int) (dados : DadosMensagem) (cdc : Option String)
    (gerarEvento : String → String → Except Unit String)
    (enviarEvento : String → Except Unit String)
    (parseRetorno : String → Option RetornoCancelamento) : ResultadoHandler :=
  match cdc with
  | none => { confirmacao := Confirmacao.nackSemReenfileirar }
  | some cdcNota =>
    let motivo := motivoEfetivo dados
    match gerarEvento cdcNota motivo with
    | Except.error _ => { confirmacao := Confirmacao.nackSemReenfileirar }
    | Except.ok xml_evento_assinado =>
      match enviarEvento xml_evento_assinado with
      | Except.error _ => { confirmacao := Confirmacao.nackSemReenfileirar }
      | Except.ok retorno =>
        let extraido :=
          match parseRetorno retorno with
          | some r => (r.dCodResNs, pyOrOpt r.dMsgResNs "Sem mensagem", pyOrOpt r.dEstResNs "")
          | none => (some "ERRO_PARSE", "Erro ao ler XML de retorno", "")
        let cod_res := extraido.1
        let msg_res := extraido.2.1
        let est_res := extraido.2.2
        if codResEhSucesso cod_res then
          { emissao := { xml_cancelamento_envio := some xml_evento_assinado,
                         xml_cancelamento_retorno := some retorno,
                         cod_status := some cod_res,
                         desc_status := some ("Cancelado: " ++ msg_res) },
            documento := { cod_status := some (decimalVal CODIGO_STATUS_CANCELADO),
                           desc_status := some "Nota Cancelada" },
            confirmacao := Confirmacao.ack }
        else if est_res = "Aprobado" then
          { emissao := { xml_cancelamento_envio := some xml_evento_assinado,
                         xml_cancelamento_retorno := some retorno,
                         cod_status := some cod_res,
                         desc_status := some ("Cancelado: " ++ msg_res) },
            documento := { cod_status := some (decimalVal CODIGO_STATUS_CANCELADO),
                           desc_status := some "Nota Cancelada" },
            confirmacao := Confirmacao.ack }
        else
          { emissao := { xml_cancelamento_envio := some xml_evento_assinado,
                         xml_cancelamento_retorno := some retorno,
                         cod_status := some cod_res,
                         desc_status := some ("Erro no cancelamento: " ++ msg_res) },
            confirmacao := Confirmacao.ack }

/-! ## Dispatcher (`handlers.on_message_received`) and publisher (`publisher.py`) -/

/-- Where the dispatcher routes a parsed message. -/
inductive Despacho where
  | ignoradaSemId
  | ignoradaSemRegistro
  | paraEnviar
  | paraConsultar
  | paraCancelar
  | ignoradaDesconhecida (acao : String)
  deriving DecidableEq, Repr

/-- Python `not id_fatura` on `dados.get('id_fatura')`: absent or zero. -/
def idFaturaAusente : Option Int → Bool
  | none => true
  | some i => i == 0

/-- The routing logic of `on_message_received`: `acao` defaults to
`'enviar'` and is lower-cased; messages without a (truthy) `id_fatura`,
or whose DB rows are missing, are acked and dropped; unknown actions are
acked and dropped. -/
def onMessageReceived (dados : DadosMensagem) (temEmissao temDocumento : Bool) : Despacho :=
  let acao := pyLower (dados.acao.getD "enviar")
  if idFaturaAusente dados.id_fatura then Despacho.ignoradaSemId
  else if !(temEmissao && temDocumento) then Despacho.ignoradaSemRegistro
  else if acao = "enviar" then Despacho.paraEnviar
  else if acao = "consultar" then Despacho.paraConsultar
  else if acao = "cancelar" then Despacho.paraCancelar
  else Despacho.ignoradaDesconhecida acao

/-- `publisher.processa_fatura`: the message published for a submit. -/
def processaFatura (id_fatura : Int) : MensagemPublicada :=
  { routing_key := MAIN_QUEUE,
    persistente := true,
    corpo := { id_fatura := some id_fatura } }

/-- `publisher.processa_cancelamento`: validates the reason
(`ValueError` when falsy or shorter than 5 characters), then publishes
the cancel message. -/
def processaCancelamento (id_fatura : Int) (motivo : String) : Except Unit MensagemPublicada :=
  if pyEmpty motivo || motivo.length < 5 then Except.error ()
  else Except.ok
    { routing_key := MAIN_QUEUE,
      persistente := true,
      corpo := { id_fatura := some id_fatura,
                 acao := some "cancelar",
                 motivo := some motivo } }

/-- `publisher.processa_consulta`: the message published for a re-poll. -/
def processaConsulta (id_fatura : Int) : MensagemPublicada :=
  { routing_key := MAIN_QUEUE,
    persistente := true,
    corpo := { id_fatura := some id_fatura,
               acao := some "consultar",
               tentativas := some 1 } }

/-! ## Helper lemmas -/

/-- A non-empty string is not Python-falsy. -/
theorem pyEmpty_eq_false (s : String) (h : s ≠ "") : pyEmpty s = false := by
  cases s with
  | mk l =>
    cases l with
    | nil => exact absurd rfl h
    | cons c cs => rfl

/-- A string containing a non-empty marker is itself non-empty. -/
theorem contains_marker_ne_nil (t m : String) (hm : m.data ≠ [])
    (h : containsSub t m = true) : pyEmpty t = false := by
  simp only [containsSub, decide_eq_true_iff] at h
  cases ht : t.data with
  | nil =>
    rw [ht] at h
    exact absurd (List.eq_nil_of_infix_nil h) hm
  | cons c cs =>
    simp [pyEmpty, ht]

/-- Splitting at the first occurrence of `marker` recovers the
decomposition `a ++ marker ++ b`, provided no earlier occurrence of
`marker` fits inside `(a ++ marker).dropLast`. -/
theorem chopMarker_spec (marker b : List Char) (hm : marker ≠ []) :
    ∀ a : List Char, ¬ marker <:+: (a ++ marker).dropLast →
      chopMarker marker (a ++ (marker ++ b)) = some (a, b) := by
  intro a
  induction a with
  | nil =>
    intro _
    obtain ⟨m, ms, rfl⟩ : ∃ m ms, marker = m :: ms := by
      cases marker with
      | nil => exact absurd rfl hm
      | cons m ms => exact ⟨m, ms, rfl⟩
    rw [List.nil_append, List.cons_append, chopMarker]
    have hpre : (m :: ms).isPrefixOf (m :: (ms ++ b)) = true := by
      rw [List.isPrefixOf_iff_prefix, ← List.cons_append]
      exact List.prefix_append _ _
    rw [hpre]
    simp [List.drop_left]
  | cons c a ih =>
    intro h1
    have hx : (c :: (a ++ (marker ++ b))) = (c :: (a ++ marker)) ++ b := by
      simp
    have hdl : ((c :: a) ++ marker).dropLast = c :: (a ++ marker).dropLast := by
      rw [List.cons_append]
      exact List.dropLast_cons_of_ne_nil (List.append_ne_nil_of_right_ne_nil a hm)
    have hcond : marker.isPrefixOf (c :: (a ++ (marker ++ b))) = false := by
      by_contra hcontra
      rw [Bool.not_eq_false, List.isPrefixOf_iff_prefix] at hcontra
      rw [hx] at hcontra
      have hlen1 : marker.length ≤ (c :: (a ++ marker)).length := by
        simp
        omega
      have hp1 : marker <+: (c :: (a ++ marker)) :=
        List.prefix_of_prefix_length_le hcontra (List.prefix_append _ _) hlen1
      have hlen2 : marker.length ≤ (c :: (a ++ marker)).dropLast.length := by
        simp [List.length_dropLast]
      have hp2 : marker <+: (c :: (a ++ marker)).dropLast :=
        List.prefix_of_prefix_length_le hp1 (List.dropLast_prefix _) hlen2
      apply h1
      rw [hdl]
      rw [List.dropLast_cons_of_ne_nil (List.append_ne_nil_of_right_ne_nil a hm)] at hp2
      exact hp2.isInfix
    have hrec : chopMarker marker (a ++ (marker ++ b)) = some (a, b) := by
      apply ih
      intro hin
      apply h1
      rw [hdl]
      exact List.infix_cons hin
    rw [List.cons_append, chopMarker, hcond, hrec]
    simp

/-! ## Claim theorems -/

/-- C1: when the submit response carries a `dProtConsLote` that is
non-empty and not `"0"`, `handle_enviar` persists the wrapped signed
XML, the raw response and the protocol on the emission record, sets code
`"900"` with the awaiting-poll description on both records, publishes
exactly one persistent poll message to the delay queue with
`tentativas = 1`, and acks. -/
theorem handle_enviar_sucesso_protocolo (idf : Int) (xq rs : String) (r : RetornoEnvio)
    (h : protocoloEnvio r ≠ "" ∧ protocoloEnvio r ≠ "0") :
    (handleEnviar idf xq rs r).emissao =
      { xml_assinado := some (xmlFinalEnvio xq),
        xml_retorno := some rs,
        protocolo := some (protocoloEnvio r),
        cod_status := some (some "900"),
        desc_status := some "Lote recebido. Aguardando consulta de status." }
    ∧ (handleEnviar idf xq rs r).documento =
      { cod_status := some 900,
        desc_status := some "Lote recebido. Aguardando consulta de status." }
    ∧ (handleEnviar idf xq rs r).publicadas =
      [{ routing_key := DELAY_QUEUE, persistente := true,
         corpo := { id_fatura := some idf, acao := some "consultar", tentativas := some 1 } }]
    ∧ (handleEnviar idf xq rs r).confirmacao = Confirmacao.ack := by
  obtain ⟨h1, h2⟩ := h
  have hv : pyEmpty (protocoloEnvio r) = false := pyEmpty_eq_false _ h1
  simp [handleEnviar, hv, h2, agendarConsulta, CODIGO_STATUS_ENVIADO, decimalVal]

/-- Witness for C1 at a concrete response carrying protocol `"ABC123"`. -/
theorem handle_enviar_sucesso_protocolo_witness :
    (protocoloEnvio { dProtConsLoteNs := some "ABC123" } ≠ "" ∧
     protocoloEnvio { dProtConsLoteNs := some "ABC123" } ≠ "0")
    ∧ (handleEnviar 7 "<X/>" "<R/>" { dProtConsLoteNs := some "ABC123" }).confirmacao
        = Confirmacao.ack := by
  refine ⟨by decide, ?_⟩
  exact (handle_enviar_sucesso_protocolo 7 "<X/>" "<R/>" { dProtConsLoteNs := some "ABC123" }
    (by decide)).2.2.2

/-- C2: on a still-pending poll response (including the transient 0160
case), `handle_consultar` publishes exactly one delay-queue message with
`tentativas` incremented when the previous value is below 10, and when
it is 10 or more persists code `"998"` with an exceeded-retries
description on both records and publishes nothing; both paths ack. -/
theorem handle_consultar_pendente_tentativas (idf : Int) (rc : String)
    (r : RetornoConsulta) (dados : DadosMensagem)
    (h : caso0160 r = true ∨ (isAprovado r = false ∧ isRejeitado r = false)) :
    ((dados.tentativas.getD 1) < 10 →
      (handleConsultar idf rc r dados).publicadas =
        [{ routing_key := DELAY_QUEUE, persistente := true,
           corpo := { id_fatura := some idf, acao := some "consultar",
                      tentativas := some ((dados.tentativas.getD 1) + 1) } }])
    ∧ (¬ (dados.tentativas.getD 1) < 10 →
        (handleConsultar idf rc r dados).publicadas = []
        ∧ (handleConsultar idf rc r dados).emissao.cod_status = some (some "998")
        ∧ (handleConsultar idf rc r dados).documento.cod_status = some 998
        ∧ ((handleConsultar idf rc r dados).emissao.desc_status
              = some "Excedeu o limite de tentativas de consulta (erro 0160)."
            ∨ (handleConsultar idf rc r dados).emissao.desc_status
              = some "Excedeu o limite de tentativas de consulta.")
        ∧ (handleConsultar idf rc r dados).documento.desc_status
            = (handleConsultar idf rc r dados).emissao.desc_status)
    ∧ (handleConsultar idf rc r dados).confirmacao = Confirmacao.ack := by
  by_cases h0 : caso0160 r = true
  · by_cases ht : (dados.tentativas.getD 1) < 10
    · simp [handleConsultar, h0, MAX_TENTATIVAS_CONSULTA, ht, agendarConsulta]
    · simp [handleConsultar, h0, MAX_TENTATIVAS_CONSULTA, ht,
        CODIGO_STATUS_EXCEDEU_TENTATIVAS, decimalVal]
  · rcases h with h | ⟨ha, hr⟩
    · exact absurd h h0
    · by_cases ht : (dados.tentativas.getD 1) < 10
      · simp [handleConsultar, h0, ha, hr, MAX_TENTATIVAS_CONSULTA, ht, agendarConsulta]
      · simp [handleConsultar, h0, ha, hr, MAX_TENTATIVAS_CONSULTA, ht,
          CODIGO_STATUS_EXCEDEU_TENTATIVAS, decimalVal]

/-- Witness for C2 at an empty (hence still-pending) response with
`tentativas = 3`. -/
theorem handle_consultar_pendente_tentativas_witness :
    (caso0160 ({} : RetornoConsulta) = true ∨
      (isAprovado ({} : RetornoConsulta) = false ∧ isRejeitado ({} : RetornoConsulta) = false))
    ∧ ((( { tentativas := some 3 } : DadosMensagem).tentativas.getD 1) < 10 →
        (handleConsultar 7 "<R/>" ({} : RetornoConsulta) { tentativas := some 3 }).publicadas =
          [{ routing_key := DELAY_QUEUE, persistente := true,
             corpo := { id_fatura := some 7, acao := some "consultar",
                        tentativas := some ((( { tentativas := some 3 } : DadosMensagem).tentativas.getD 1) + 1) } }]) := by
  refine ⟨by decide, ?_⟩
  exact (handle_consultar_pendente_tentativas 7 "<R/>" {} { tentativas := some 3 }
    (by decide)).1

/-- C3: the `cHashQR` suffix of the produced QR URL is the hash of the
base query string concatenated with the whitespace-stripped CSC secret;
stripping the configured prefix and splitting at the first `&cHashQR=`
marker recovers the base query and exactly that hash. -/
theorem qr_hash_recalculado (url_sifen_qr csc csc_id : String) (doc : SignedDoc)
    (sha256hex : String → String)
    (h : ¬ ("&cHashQR=".data <:+: ((urlBaseQr doc csc_id).data ++ "&cHashQR=".data).dropLast)) :
    chopMarker "&cHashQR=".data
        (List.drop url_sifen_qr.length (urlFinalQr url_sifen_qr doc csc csc_id sha256hex).data)
      = some ((urlBaseQr doc csc_id).data,
              (sha256hex (urlBaseQr doc csc_id ++ pyStrip csc)).data) := by
  have hdata : (urlFinalQr url_sifen_qr doc csc csc_id sha256hex).data
      = url_sifen_qr.data ++ ((urlBaseQr doc csc_id).data ++ ("&cHashQR=".data ++
          (sha256hex (urlBaseQr doc csc_id ++ pyStrip csc)).data)) := by
    simp [urlFinalQr, String.data_append, List.append_assoc]
  rw [hdata, show url_sifen_qr.length = url_sifen_qr.data.length from rfl, List.drop_left]
  exact chopMarker_spec "&cHashQR=".data _ (by decide) _ h

set_option maxRecDepth 40000 in
/-- Witness for C3 at a concrete signed document, secret and hash function. -/
theorem qr_hash_recalculado_witness :
    (¬ ("&cHashQR=".data <:+:
        ((urlBaseQr { deId := some "0123", digestValueB64 := "AA==", dFeEmiDE := some "X",
                      dRucRec := none, dTotGralOpe := some "1000", dTotIVA := some "90",
                      gCamItemCount := 2 } "ID1").data ++ "&cHashQR=".data).dropLast))
    ∧ chopMarker "&cHashQR=".data
        (List.drop ("https://qr/?" : String).length
          (urlFinalQr "https://qr/?"
            { deId := some "0123", digestValueB64 := "AA==", dFeEmiDE := some "X",
              dRucRec := none, dTotGralOpe := some "1000", dTotIVA := some "90",
              gCamItemCount := 2 } " SEG " "ID1" (fun s => natStr s.length)).data)
      = some ((urlBaseQr { deId := some "0123", digestValueB64 := "AA==", dFeEmiDE := some "X",
                           dRucRec := none, dTotGralOpe := some "1000", dTotIVA := some "90",
                           gCamItemCount := 2 } "ID1").data,
              ((fun (s : String) => natStr s.length)
                (urlBaseQr { deId := some "0123", digestValueB64 := "AA==", dFeEmiDE := some "X",
                             dRucRec := none, dTotGralOpe := some "1000", dTotIVA := some "90",
                             gCamItemCount := 2 } "ID1" ++ pyStrip " SEG ")).data) := by
  refine ⟨by decide, ?_⟩
  exact qr_hash_recalculado "https://qr/?" " SEG " "ID1"
    { deId := some "0123", digestValueB64 := "AA==", dFeEmiDE := some "X",
      dRucRec := none, dTotGralOpe := some "1000", dTotIVA := some "90",
      gCamItemCount := 2 } (fun s => natStr s.length) (by decide)

/-- C4: the `DigestValue` QR field is the lowercase hex of the UTF-8
bytes of the stripped base64 text as written, and that differs from the
hex of the base64-decoded digest bytes. -/
theorem qr_digest_hex_do_texto_base64 (doc : SignedDoc) (csc_id : String) :
    List.lookup "DigestValue" (qrFieldsSpec doc csc_id)
      = some (digestValueHexDe doc.digestValueB64)
    ∧ digestValueHexDe "AA==" ≠ bytesToHex (base64Decode "AA==") := by
  exact ⟨rfl, by decide⟩

/-- C5: the QR base query string is exactly the nine fields `nVersion`,
`Id`, `dFeEmiDE`, `dRucRec`, `dTotGralOpe`, `dTotIVA`, `cItems`,
`DigestValue`, `IdCSC` in that order, ampersand-joined without
URL-encoding, with `nVersion = "150"`, `dFeEmiDE` hex-encoded, `cItems`
the `gCamItem` count, and a missing text field defaulting to `"0"`. -/
theorem qr_base_query_campos_ordenados (doc : SignedDoc) (csc_id : String) :
    urlBaseQr doc csc_id = joinAmp (qrFieldsSpec doc csc_id)
    ∧ getXmlText none = "0" := by
  refine ⟨?_, rfl⟩
  apply String.ext
  simp only [urlBaseQr, joinAmp, qrFieldsSpec, SIFEN_VERSION, String.data_append,
    List.append_assoc]
  rfl

/-- C6: a poll response with code `"0160"` and message exactly
`"XML Mal Formado."` is not classified as rejected: below the attempts
limit `handle_consultar` persists code `"900"` with the reprocessing
description on both records and publishes one rescheduled poll, and the
rescheduling is bounded by `MAX_TENTATIVAS_CONSULTA`; both paths ack. -/
theorem handle_consultar_caso_0160 (idf : Int) (rc : String)
    (r : RetornoConsulta) (dados : DadosMensagem)
    (h : caso0160 r = true) :
    ((dados.tentativas.getD 1) < MAX_TENTATIVAS_CONSULTA →
      (handleConsultar idf rc r dados).emissao =
        { xml_retorno := some rc, cod_status := some (some "900"),
          desc_status := some "Reprocessando consulta" }
      ∧ (handleConsultar idf rc r dados).documento =
        { cod_status := some 900, desc_status := some "Reprocessando consulta" }
      ∧ (handleConsultar idf rc r dados).publicadas =
        [{ routing_key := DELAY_QUEUE, persistente := true,
           corpo := { id_fatura := some idf, acao := some "consultar",
                      tentativas := some ((dados.tentativas.getD 1) + 1) } }])
    ∧ (¬ (dados.tentativas.getD 1) < MAX_TENTATIVAS_CONSULTA →
        (handleConsultar idf rc r dados).emissao.cod_status
          = some (some CODIGO_STATUS_EXCEDEU_TENTATIVAS)
        ∧ (handleConsultar idf rc r dados).publicadas = [])
    ∧ (handleConsultar idf rc r dados).confirmacao = Confirmacao.ack := by
  by_cases ht : (dados.tentativas.getD 1) < MAX_TENTATIVAS_CONSULTA
  · simp [handleConsultar, h, ht, agendarConsulta]
  · simp [handleConsultar, h, ht]

/-- Witness for C6 at a concrete 0160 response with exhausted attempts. -/
theorem handle_consultar_caso_0160_witness :
    caso0160 { dCodResNs := some "0160", dMsgResLotNs := some "XML Mal Formado." } = true
    ∧ (handleConsultar 7 "<R/>"
        { dCodResNs := some "0160", dMsgResLotNs := some "XML Mal Formado." }
        { tentativas := some 10 }).confirmacao = Confirmacao.ack := by
  refine ⟨by decide, ?_⟩
  exact (handle_consultar_caso_0160 7 "<R/>"
    { dCodResNs := some "0160", dMsgResLotNs := some "XML Mal Formado." }
    { tentativas := some 10 } (by decide)).2.2

/-- C7: a 2xx body is always returned; a non-2xx body is returned if and
only if it contains one of the four XML markers, and the client raises
exactly when none is present. -/
theorem make_sifen_request_corpo_xml (t : String) :
    makeSifenRequest true t = Except.ok t
    ∧ (makeSifenRequest false t = Except.ok t ↔
        (containsSub t "<?xml" || containsSub t "<env:Envelope" ||
         containsSub t "<soap:Envelope" || containsSub t "<Envelope") = true)
    ∧ (makeSifenRequest false t = Except.error () ↔
        (containsSub t "<?xml" || containsSub t "<env:Envelope" ||
         containsSub t "<soap:Envelope" || containsSub t "<Envelope") = false) := by
  have hkey : temXmlValido t =
      (containsSub t "<?xml" || containsSub t "<env:Envelope" ||
       containsSub t "<soap:Envelope" || containsSub t "<Envelope") := by
    by_cases hmk : (containsSub t "<?xml" || containsSub t "<env:Envelope" ||
         containsSub t "<soap:Envelope" || containsSub t "<Envelope") = true
    · have hne : pyEmpty t = false := by
        rcases Bool.or_eq_true_iff.mp hmk with h3 | h4
        · rcases Bool.or_eq_true_iff.mp h3 with h1 | h2
          · rcases Bool.or_eq_true_iff.mp h1 with ha | hb
            · exact contains_marker_ne_nil t "<?xml" (by decide) ha
            · exact contains_marker_ne_nil t "<env:Envelope" (by decide) hb
          · exact contains_marker_ne_nil t "<soap:Envelope" (by decide) h2
        · exact contains_marker_ne_nil t "<Envelope" (by decide) h4
      simp [temXmlValido, hne, hmk]
    · simp only [Bool.not_eq_true] at hmk
      simp [temXmlValido, hmk]
  refine ⟨rfl, ?_, ?_⟩ <;>
  · rw [show makeSifenRequest false t
        = (if temXmlValido t then Except.ok t else Except.error ()) from rfl, hkey]
    by_cases hmk : (containsSub t "<?xml" || containsSub t "<env:Envelope" ||
         containsSub t "<soap:Envelope" || containsSub t "<Envelope") = true
    · simp [hmk]
    · simp only [Bool.not_eq_true] at hmk
      simp [hmk]

/-- C8: on a parsed cancel response, success (code in the success list or
`dEstRes = "Aprobado"`) updates both the emission record and the header;
otherwise only the emission record is updated with the error description
and the header is untouched; both paths ack. -/
theorem handle_cancelar_classificacao (idf : Int) (dados : DadosMensagem)
    (cdcNota xe ret : String) (r : RetornoCancelamento)
    (gerarEvento : String → String → Except Unit String)
    (enviarEvento : String → Except Unit String)
    (parseRetorno : String → Option RetornoCancelamento)
    (hg : gerarEvento cdcNota (motivoEfetivo dados) = Except.ok xe)
    (he : enviarEvento xe = Except.ok ret)
    (hp : parseRetorno ret = some r) :
    ((codResEhSucesso r.dCodResNs = true ∨ pyOrOpt r.dEstResNs "" = "Aprobado") →
      (handleCancelar idf dados (some cdcNota) gerarEvento enviarEvento parseRetorno).emissao =
        { xml_cancelamento_envio := some xe,
          xml_cancelamento_retorno := some ret,
          cod_status := some r.dCodResNs,
          desc_status := some ("Cancelado: " ++ pyOrOpt r.dMsgResNs "Sem mensagem") }
      ∧ (handleCancelar idf dados (some cdcNota) gerarEvento enviarEvento parseRetorno).documento =
        { cod_status := some 600, desc_status := some "Nota Cancelada" })
    ∧ ((codResEhSucesso r.dCodResNs = false ∧ pyOrOpt r.dEstResNs "" ≠ "Aprobado") →
      (handleCancelar idf dados (some cdcNota) gerarEvento enviarEvento parseRetorno).emissao =
        { xml_cancelamento_envio := some xe,
          xml_cancelamento_retorno := some ret,
          cod_status := some r.dCodResNs,
          desc_status := some ("Erro no cancelamento: " ++ pyOrOpt r.dMsgResNs "Sem mensagem") }
      ∧ (handleCancelar idf dados (some cdcNota) gerarEvento enviarEvento parseRetorno).documento =
        ({} : DocumentoUpdate))
    ∧ (handleCancelar idf dados (some cdcNota) gerarEvento enviarEvento parseRetorno).confirmacao
        = Confirmacao.ack := by
  by_cases hs : codResEhSucesso r.dCodResNs = true
  · simp [handleCancelar, hg, he, hp, hs, CODIGO_STATUS_CANCELADO, decimalVal]
  · by_cases hest : pyOrOpt r.dEstResNs "" = "Aprobado"
    · simp [handleCancelar, hg, he, hp, hs, hest, CODIGO_STATUS_CANCELADO, decimalVal]
    · simp [handleCancelar, hg, he, hp, hs, hest]

/-- Witness for C8 at a concrete successful cancellation. -/
theorem handle_cancelar_classificacao_witness :
    ((fun (_ : String) (m : String) => Except.ok ("EVT:" ++ m) : String → String → Except Unit String)
        "CDC" (motivoEfetivo { motivo := some "Duplicado" }) = Except.ok "EVT:Duplicado")
    ∧ (handleCancelar 7 { motivo := some "Duplicado" } (some "CDC")
        (fun _ m => Except.ok ("EVT:" ++ m))
        (fun x => Except.ok ("RET:" ++ x))
        (fun _ => some { dCodResNs := some "0501" })).confirmacao = Confirmacao.ack := by
  refine ⟨rfl, ?_⟩
  exact (handle_cancelar_classificacao 7 { motivo := some "Duplicado" } "CDC"
    "EVT:Duplicado" "RET:EVT:Duplicado" { dCodResNs := some "0501" }
    (fun _ m => Except.ok ("EVT:" ++ m)) (fun x => Except.ok ("RET:" ++ x))
    (fun _ => some { dCodResNs := some "0501" })
    rfl rfl rfl).2.2

/-- C9 counterexample: for a cancel message whose reason is `"ab"`
(length 2, below the claimed minimum of 5), `handle_cancelar` does not
refuse: it builds the event from the short reason, submits it, persists
both XMLs and acks. -/
theorem handle_cancelar_nao_revalida_motivo :
    (handleCancelar 7 { id_fatura := some 7, acao := some "cancelar", motivo := some "ab" }
      (some "CDC") (fun _ m => Except.ok ("EVT:" ++ m)) (fun x => Except.ok ("RET:" ++ x))
      (fun _ => some { dCodResNs := some "0500" })).confirmacao = Confirmacao.ack
    ∧ (handleCancelar 7 { id_fatura := some 7, acao := some "cancelar", motivo := some "ab" }
      (some "CDC") (fun _ m => Except.ok ("EVT:" ++ m)) (fun x => Except.ok ("RET:" ++ x))
      (fun _ => some { dCodResNs := some "0500" })).emissao.xml_cancelamento_envio
        = some "EVT:ab"
    ∧ (handleCancelar 7 { id_fatura := some 7, acao := some "cancelar", motivo := some "ab" }
      (some "CDC") (fun _ m => Except.ok ("EVT:" ++ m)) (fun x => Except.ok ("RET:" ++ x))
      (fun _ => some { dCodResNs := some "0500" })).emissao.xml_cancelamento_retorno
        = some "RET:EVT:ab"
    ∧ ("ab" : String).length < 5 := by
  refine ⟨rfl, rfl, rfl, by decide⟩

/-- C9 amended: only the publisher validates the reason — it raises
exactly when the reason is falsy or shorter than 5 characters and
otherwise publishes the cancel message; the worker core does not
re-validate: it defaults a missing reason and feeds whatever reason the
message carries into the event build and submission, then acks. -/
theorem validacao_motivo_publisher (idf : Int) (motivo : String) (dados : DadosMensagem)
    (cdcNota xe ret : String)
    (gerarEvento : String → String → Except Unit String)
    (enviarEvento : String → Except Unit String)
    (parseRetorno : String → Option RetornoCancelamento)
    (hg : gerarEvento cdcNota (motivoEfetivo dados) = Except.ok xe)
    (he : enviarEvento xe = Except.ok ret) :
    ((pyEmpty motivo = true ∨ motivo.length < 5) →
        processaCancelamento idf motivo = Except.error ())
    ∧ (5 ≤ motivo.length →
        processaCancelamento idf motivo = Except.ok
          { routing_key := MAIN_QUEUE, persistente := true,
            corpo := { id_fatura := some idf, acao := some "cancelar", motivo := some motivo } })
    ∧ (handleCancelar idf dados (some cdcNota) gerarEvento enviarEvento parseRetorno).emissao.xml_cancelamento_envio
        = some xe
    ∧ (handleCancelar idf dados (some cdcNota) gerarEvento enviarEvento parseRetorno).emissao.xml_cancelamento_retorno
        = some ret
    ∧ (handleCancelar idf dados (some cdcNota) gerarEvento enviarEvento parseRetorno).confirmacao
        = Confirmacao.ack := by
  refine ⟨?_, ?_, ?_, ?_, ?_⟩
  · rintro (hm | hm)
    · simp [processaCancelamento, hm]
    · simp [processaCancelamento, hm]
  · intro hm
    have h1 : ¬ motivo.length < 5 := by omega
    have h0 : pyEmpty motivo = false := by
      apply pyEmpty_eq_false
      intro hq
      rw [hq] at hm
      simp [String.length] at hm
    simp [processaCancelamento, h0, h1]
  · cases hpr : parseRetorno ret with
    | none =>
      simp [handleCancelar, hg, he, hpr, codResEhSucesso, CODIGOS_SUCESSO_CANCELAMENTO]
    | some r =>
      by_cases hs : codResEhSucesso r.dCodResNs = true
      · simp [handleCancelar, hg, he, hpr, hs]
      · by_cases hest : pyOrOpt r.dEstResNs "" = "Aprobado"
        · simp [handleCancelar, hg, he, hpr, hs, hest]
        · simp [handleCancelar, hg, he, hpr, hs, hest]
  · cases hpr : parseRetorno ret with
    | none =>
      simp [handleCancelar, hg, he, hpr, codResEhSucesso, CODIGOS_SUCESSO_CANCELAMENTO]
    | some r =>
      by_cases hs : codResEhSucesso r.dCodResNs = true
      · simp [handleCancelar, hg, he, hpr, hs]
      · by_cases hest : pyOrOpt r.dEstResNs "" = "Aprobado"
        · simp [handleCancelar, hg, he, hpr, hs, hest]
        · simp [handleCancelar, hg, he, hpr, hs, hest]
  · cases hpr : parseRetorno ret with
    | none =>
      simp [handleCancelar, hg, he, hpr, codResEhSucesso, CODIGOS_SUCESSO_CANCELAMENTO]
    | some r =>
      by_cases hs : codResEhSucesso r.dCodResNs = true
      · simp [handleCancelar, hg, he, hpr, hs]
      · by_cases hest : pyOrOpt r.dEstResNs "" = "Aprobado"
        · simp [handleCancelar, hg, he, hpr, hs, hest]
        · simp [handleCancelar, hg, he, hpr, hs, hest]

/-- Witness for the C9 amended theorem: the publisher accepts the
9-character reason `"Duplicado"`, while the core proceeds with `"ab"`. -/
theorem validacao_motivo_publisher_witness :
    ((fun (_ : String) (m : String) => Except.ok m : String → String → Except Unit String)
        "CDC" (motivoEfetivo { motivo := some "ab" }) = Except.ok "ab")
    ∧ (5 ≤ ("Duplicado" : String).length →
        processaCancelamento 7 "Duplicado" = Except.ok
          { routing_key := MAIN_QUEUE, persistente := true,
            corpo := { id_fatura := some 7, acao := some "cancelar", motivo := some "Duplicado" } }) := by
  refine ⟨rfl, ?_⟩
  exact (validacao_motivo_publisher 7 "Duplicado" { motivo := some "ab" } "CDC" "ab" "ab"
    (fun _ m => Except.ok m) (fun s => Except.ok s) (fun _ => none)
    rfl rfl).2.1

/-- C10: a message with a (truthy) `id_fatura` and no `acao` key is not
dropped: the dispatcher defaults the action to `enviar` and routes to
the submit handler; the submit publisher emits exactly that shape. -/
theorem despacho_acao_ausente_enviar (dados : DadosMensagem) (idf : Int)
    (hacao : dados.acao = none) (hid : dados.id_fatura = some idf) (hnz : idf ≠ 0) :
    onMessageReceived dados true true = Despacho.paraEnviar
    ∧ (processaFatura idf).corpo.acao = none
    ∧ onMessageReceived (processaFatura idf).corpo true true = Despacho.paraEnviar := by
  have hl : pyLower "enviar" = "enviar" := rfl
  have hz : (idf == 0) = false := by
    simp [hnz]
  refine ⟨?_, rfl, ?_⟩
  · simp [onMessageReceived, hacao, hid, idFaturaAusente, hz, hl]
  · simp [onMessageReceived, processaFatura, idFaturaAusente, hz, hl]

/-- Witness for C10 at the concrete message `{ id_fatura := 7 }`. -/
theorem despacho_acao_ausente_enviar_witness :
    (({ id_fatura := some 7 } : DadosMensagem).acao = none
      ∧ ({ id_fatura := some 7 } : DadosMensagem).id_fatura = some 7 ∧ (7 : Int) ≠ 0)
    ∧ onMessageReceived { id_fatura := some 7 } true true = Despacho.paraEnviar := by
  refine ⟨⟨rfl, rfl, by decide⟩, ?_⟩
  exact (despacho_acao_ausente_enviar { id_fatura := some 7 } 7 rfl rfl (by decide)).1

end Sisprime
